import Mathlib

/-!
Shallow embedding of the dbus-python container types (`containers-impl.h`)
and the pending-call completion bridge (`pending-call-impl.h`).

Python objects are modelled by the inductive `DBus.PyVal`; CPython C-API
calls that the source relies on (`PyInt_AsLong`, `PyArg_ParseTupleAndKeywords`,
`PyList_Type.tp_init`, `PyDict_Type.tp_init`, `PyMember_SetOne`) are embedded
with their documented CPython semantics.  The external `Signature`
collaborator is a parameter: an arbitrary fallible single-argument
constructor, as §6 of the design describes it.
-/

set_option autoImplicit false

namespace DBus

/-- A Python value, restricted to the shapes the container code touches:
integers, strings, `None`, validated `Signature` instances (carrying their
text), lists, tuples and dicts. -/
inductive PyVal where
  | int (n : Int)
  | str (s : String)
  | pynone
  | sig (text : String)
  | list (xs : List PyVal)
  | tuple (xs : List PyVal)
  | dictv (entries : List (PyVal × PyVal))
deriving Repr

mutual

/-- Structural equality of Python values, as `PyObject_RichCompare`
decides it on these shapes (dict `__setitem__` uses it on keys). -/
def pyEqv : PyVal → PyVal → Bool
  | .int a, .int b => a == b
  | .str a, .str b => a == b
  | .pynone, .pynone => true
  | .sig a, .sig b => a == b
  | .list xs, .list ys => pyEqvList xs ys
  | .tuple xs, .tuple ys => pyEqvList xs ys
  | .dictv xs, .dictv ys => pyEqvPairs xs ys
  | _, _ => false

/-- Elementwise `pyEqv` on lists. -/
def pyEqvList : List PyVal → List PyVal → Bool
  | [], [] => true
  | x :: xs, y :: ys => pyEqv x y && pyEqvList xs ys
  | _, _ => false

/-- Elementwise `pyEqv` on key-value pair lists. -/
def pyEqvPairs : List (PyVal × PyVal) → List (PyVal × PyVal) → Bool
  | [], [] => true
  | (k, v) :: xs, (l, w) :: ys => pyEqv k l && pyEqv v w && pyEqvPairs xs ys
  | _, _ => false

end

/-- `PyInt_AsLong`: the integer value of an int object, an error otherwise. -/
def PyInt_AsLong : PyVal → Except Unit Int
  | .int n => .ok n
  | _ => .error ()

/-- Keyword arguments: the `kwargs` dict of a constructor call, keys are
interned strings.  A NULL `kwargs` is the empty list. -/
def Kwargs : Type := List (String × PyVal)

/-- `PyDict_GetItem(kwargs, name)`: first binding of `name`, if any. -/
def lookupKw (kwargs : List (String × PyVal)) (name : String) : Option PyVal :=
  match kwargs with
  | [] => none
  | (k, v) :: rest => if k = name then some v else lookupKw rest name

/-- The interned string constant `variant_level_const`. -/
def variant_level_const : String := "variant_level"

/-- The interned string constant `signature_const` (line 552). -/
def signature_const : String := "signature"

/-- One optional argument of `PyArg_ParseTupleAndKeywords`: positional if
present (a duplicate keyword for the same name is a `TypeError`), otherwise
looked up among the keywords. -/
def argAt (names : List String) (args : List PyVal)
    (kwargs : List (String × PyVal)) (i : Nat) : Except Unit (Option PyVal) :=
  match args[i]?, lookupKw kwargs (names.getD i "") with
  | some _, some _ => .error ()
  | some v, none => .ok (some v)
  | none, kv => .ok kv

/-- `PyArg_ParseTupleAndKeywords(args, kwargs, "|OOO", argnames)` for the
three optional arguments of `Array_tp_init` / `Dict_tp_init`: at most three
positionals, every keyword must be one of the declared names. -/
def parse3 (names : List String) (args : List PyVal)
    (kwargs : List (String × PyVal)) :
    Except Unit (Option PyVal × Option PyVal × Option PyVal) :=
  if 3 < args.length then .error ()
  else if kwargs.any (fun kv => ¬ names.contains kv.fst) then .error ()
  else do
    let a ← argAt names args kwargs 0
    let b ← argAt names args kwargs 1
    let c ← argAt names args kwargs 2
    .ok (a, b, c)

/-- The signature-normalisation snippet repeated verbatim in
`Array_tp_init` (lines 141-152), `Dict_tp_init` (lines 328-339) and
`Struct_tp_new` (lines 482-496): absent or `Py_None` is kept as `None`, an
object that already is a `Signature` instance is kept as-is, anything else
is handed to the `Signature` collaborator's single-argument constructor,
whose failure propagates. -/
def normalize_signature (ctor : PyVal → Except Unit String)
    (signature : Option PyVal) : Except Unit PyVal :=
  match signature.getD PyVal.pynone with
  | .pynone => .ok .pynone
  | .sig t => .ok (.sig t)
  | other => (ctor other).map PyVal.sig

/-- `PyObject_GetIter` + exhaustion, as the list/tuple initialisers use it:
lists, tuples and strings iterate over their items, dicts over their keys,
everything else is a `TypeError`. -/
def pyIter : PyVal → Except Unit (List PyVal)
  | .list xs => .ok xs
  | .tuple xs => .ok xs
  | .str s => .ok (s.data.map fun c => PyVal.str (String.mk [c]))
  | .dictv es => .ok (es.map Prod.fst)
  | _ => .error ()

/-! ## Array (`containers-impl.h` lines 27-211) -/

/-- The `Array` struct: a `PyListObject` plus the two extra fields
(lines 45-49).  `elems` is the inherited list storage. -/
structure ArrayObj where
  elems : List PyVal
  signature : PyVal
  variant_level : Int
deriving Repr

/-- One `PyMemberDef` entry, keeping only what the claims read: the member
name and whether it carries the `READONLY` flag. -/
structure PyMemberDef where
  name : String
  readonly : Bool
deriving Repr

/-- `Array_tp_members` (lines 51-60): both members are `READONLY`. -/
def Array_tp_members : List PyMemberDef :=
  [{ name := "signature", readonly := true },
   { name := "variant_level", readonly := true }]

/-- `PyMember_SetOne` on a member descriptor: assignment to a `READONLY`
member raises; otherwise it would store the value (CPython semantics of
the generic member-setting entry point). -/
def PyMember_SetOne (m : PyMemberDef) : Except Unit Unit :=
  if m.readonly then .error () else .ok ()

/-- Attribute assignment routed through a type's member table: unknown
names raise an `AttributeError` (neither `Array` nor `Dict` has a
`tp_setattro` of its own or an instance dict, so members are the only
writable surface). -/
def member_assign (members : List PyMemberDef) (name : String) :
    Except Unit Unit :=
  match members.find? (fun m => m.name == name) with
  | some m => PyMember_SetOne m
  | none => .error ()

/-- `Array_tp_new` (lines 100-123): allocate via the list base type (an
empty list, args ignored), set `signature = None`, `variant_level = 0`,
then overwrite `variant_level` from `kwargs["variant_level"]` through
`PyInt_AsLong`, failing if that conversion fails.  No sign check. -/
def Array_tp_new (kwargs : List (String × PyVal)) : Except Unit ArrayObj := do
  let base : ArrayObj := { elems := [], signature := .pynone, variant_level := 0 }
  match lookupKw kwargs variant_level_const with
  | none => .ok base
  | some v => do
      let n ← PyInt_AsLong v
      .ok { base with variant_level := n }

/-- `PyList_Type.tp_init(self, (obj,), NULL)`: CPython's `list.__init__`
clears the list and extends it with the items of the iterable, so the new
contents are exactly the iteration of `obj`; a non-iterable is a
`TypeError`. -/
def list_tp_init (obj : PyVal) : Except Unit (List PyVal) := pyIter obj

/-- `Array_tp_init` (lines 126-169): parse `|OOO` with names
`iterable, signature, variant_level` (the third is accepted but ignored),
default the iterable to `empty_tuple`, normalise the signature, delegate
element population to the list base initialiser, then store the
normalised signature.  `variant_level` is never touched here. -/
def Array_tp_init (self : ArrayObj) (args : List PyVal)
    (kwargs : List (String × PyVal)) (ctor : PyVal → Except Unit String) :
    Except Unit ArrayObj := do
  let (objOpt, sigOpt, _vl) ←
    parse3 ["iterable", "signature", "variant_level"] args kwargs
  let obj := objOpt.getD (.tuple [])
  let signature ← normalize_signature ctor sigOpt
  let elems ← list_tp_init obj
  .ok { self with elems := elems, signature := signature }

/-- `type.__call__` on `dbus.Array`: `tp_new` then `tp_init` with the same
argument tuple and keyword dict. -/
def Array_construct (args : List PyVal) (kwargs : List (String × PyVal))
    (ctor : PyVal → Except Unit String) : Except Unit ArrayObj := do
  let a ← Array_tp_new kwargs
  Array_tp_init a args kwargs ctor

/-- `Array_tp_repr` (lines 70-98): `PyString_FromFormat` with the type
name, the list base repr, the signature repr, and — only when
`variant_level > 0` — a trailing `variant_level` clause.  The base repr
and signature repr are produced by external repr calls and enter as
parameters. -/
def Array_tp_repr (tp_name parent_repr sig_repr : String)
    (self : ArrayObj) : String :=
  if 0 < self.variant_level then
    tp_name ++ "(" ++ parent_repr ++ ", signature=" ++ sig_repr ++
      ", variant_level=" ++ toString self.variant_level ++ ")"
  else
    tp_name ++ "(" ++ parent_repr ++ ", signature=" ++ sig_repr ++ ")"

/-! ## Dict (`containers-impl.h` lines 213-399) -/

/-- The `Dict` struct (lines 233-237): a `PyDictObject` plus the same two
extra fields. -/
structure DictObj where
  entries : List (PyVal × PyVal)
  signature : PyVal
  variant_level : Int
deriving Repr

/-- `Dict_tp_members` (lines 239-248): both members are `READONLY`. -/
def Dict_tp_members : List PyMemberDef :=
  [{ name := "signature", readonly := true },
   { name := "variant_level", readonly := true }]

/-- `Dict_tp_new` (lines 288-311): identical to `Array_tp_new` over the
dict base type. -/
def Dict_tp_new (kwargs : List (String × PyVal)) : Except Unit DictObj := do
  let base : DictObj := { entries := [], signature := .pynone, variant_level := 0 }
  match lookupKw kwargs variant_level_const with
  | none => .ok base
  | some v => do
      let n ← PyInt_AsLong v
      .ok { base with variant_level := n }

/-- Dict `__setitem__` on the modelled entry list: replace the value of an
existing key (keeping the stored key object), else append the binding. -/
def pySetItem (d : List (PyVal × PyVal)) (k v : PyVal) :
    List (PyVal × PyVal) :=
  match d with
  | [] => [(k, v)]
  | (k0, v0) :: rest =>
      if pyEqv k0 k then (k0, v) :: rest else (k0, v0) :: pySetItem rest k v

/-- Fold `pySetItem` over an update sequence. -/
def dictMerge (d upd : List (PyVal × PyVal)) : List (PyVal × PyVal) :=
  upd.foldl (fun acc kv => pySetItem acc kv.fst kv.snd) d

/-- An item of an iterable handed to `dict.__init__` must be a 2-element
sequence. -/
def asPair : PyVal → Except Unit (PyVal × PyVal)
  | .tuple [a, b] => .ok (a, b)
  | .list [a, b] => .ok (a, b)
  | _ => .error ()

/-- `PyDict_Type.tp_init(self, (obj,), NULL)`: CPython's `dict.__init__`
does NOT clear the dict — it merges the argument into the existing
contents (a mapping via its items, an iterable via key-value pairs);
anything else is a `TypeError`. -/
def dict_tp_init (old : List (PyVal × PyVal)) (obj : PyVal) :
    Except Unit (List (PyVal × PyVal)) :=
  match obj with
  | .dictv es => .ok (dictMerge old es)
  | .list xs => do
      let ps ← xs.mapM asPair
      .ok (dictMerge old ps)
  | .tuple xs => do
      let ps ← xs.mapM asPair
      .ok (dictMerge old ps)
  | _ => .error ()

/-- `Dict_tp_init` (lines 313-357): parse `|OOO` with names
`mapping_or_iterable, signature, variant_level` (third ignored), default
the mapping to `empty_tuple`, normalise the signature, delegate
population to the dict base initialiser, store the normalised signature.
`variant_level` is never touched here. -/
def Dict_tp_init (self : DictObj) (args : List PyVal)
    (kwargs : List (String × PyVal)) (ctor : PyVal → Except Unit String) :
    Except Unit DictObj := do
  let (objOpt, sigOpt, _vl) ←
    parse3 ["mapping_or_iterable", "signature", "variant_level"] args kwargs
  let obj := objOpt.getD (.tuple [])
  let signature ← normalize_signature ctor sigOpt
  let entries ← dict_tp_init self.entries obj
  .ok { self with entries := entries, signature := signature }

/-- `type.__call__` on `dbus.Dictionary`: `tp_new` then `tp_init`. -/
def Dict_construct (args : List PyVal) (kwargs : List (String × PyVal))
    (ctor : PyVal → Except Unit String) : Except Unit DictObj := do
  let d ← Dict_tp_new kwargs
  Dict_tp_init d args kwargs ctor

/-- `Dict_tp_repr` (lines 258-286): same format as `Array_tp_repr` over
the dict base repr. -/
def Dict_tp_repr (tp_name parent_repr sig_repr : String)
    (self : DictObj) : String :=
  if 0 < self.variant_level then
    tp_name ++ "(" ++ parent_repr ++ ", signature=" ++ sig_repr ++
      ", variant_level=" ++ toString self.variant_level ++ ")"
  else
    tp_name ++ "(" ++ parent_repr ++ ", signature=" ++ sig_repr ++ ")"

/-! ## Struct (`containers-impl.h` lines 401-547) -/

/-- A constructed `dbus.Struct`: a tuple plus the two attributes that
`Struct_tp_new` stores in the instance dict via `PyObject_GenericSetAttr`.
`variant_level` is kept as the stored int object (the `O!` converter
guarantees it is a `PyInt`). -/
structure StructObj where
  elems : List PyVal
  signature : PyVal
  variant_level : PyVal
deriving Repr

/-- The keyword-only parse `"|OO!"` of `Struct_tp_new` (lines 459-471):
positionals are `empty_tuple`, keywords must be among
`signature, variant_level`, and a present `variant_level` must be a
`PyInt` (`O!` with `PyInt_Type`). -/
def Struct_parse_kwargs (kwargs : List (String × PyVal)) :
    Except Unit (Option PyVal × Option PyVal) :=
  if kwargs.any (fun kv => ¬ ["signature", "variant_level"].contains kv.fst)
  then .error ()
  else
    match lookupKw kwargs variant_level_const with
    | some (.int n) => .ok (lookupKw kwargs signature_const, some (.int n))
    | some _ => .error ()
    | none => .ok (lookupKw kwargs signature_const, none)

/-- `PyTuple_Type.tp_new(cls, args, NULL)` with `args` the original
1-tuple: `tuple(iterable)`, the items of the single argument. -/
def tuple_tp_new (iterable : PyVal) : Except Unit (List PyVal) :=
  pyIter iterable

/-- `Struct_tp_new` (lines 453-505): exactly one positional argument,
keyword-only `signature` and `variant_level` (the latter a `PyInt`,
defaulting to `PyInt_FromLong(0)`), tuple allocation from the iterable,
then `variant_level` and the normalised `signature` are stored with
`PyObject_GenericSetAttr` (which bypasses the immutable `tp_setattro`). -/
def Struct_tp_new (args : List PyVal) (kwargs : List (String × PyVal))
    (ctor : PyVal → Except Unit String) : Except Unit StructObj := do
  if args.length ≠ 1 then .error ()
  else do
    let (sigOpt, vlOpt) ← Struct_parse_kwargs kwargs
    let variantness := vlOpt.getD (.int 0)
    let elems ← tuple_tp_new (args.getD 0 .pynone)
    let signature ← normalize_signature ctor sigOpt
    .ok { elems := elems, signature := signature, variant_level := variantness }

/-- Modelled from the spec: `Glue_immutable_setattro` — the `tp_setattro`
slot installed on `StructType` (line 526) — is not among the repository
files provided; per the design, "any external attempt to assign an
attribute on a constructed Struct-container must fail" with an
immutability violation, mutating nothing. -/
def Glue_immutable_setattro (_self : StructObj) (_name : String)
    (_v : PyVal) : Except Unit StructObj := .error ()

/-- `Struct_tp_repr` (lines 415-451): same format, with `signature` and
`variant_level` fetched back through `PyObject_GetAttr` and the latter
put through `PyInt_AsLong` (whose error value is `-1`, unchecked here —
construction guarantees an int is stored). -/
def Struct_tp_repr (tp_name parent_repr sig_repr : String)
    (self : StructObj) : String :=
  let variant_level : Int :=
    match self.variant_level with
    | .int n => n
    | _ => -1
  if 0 < variant_level then
    tp_name ++ "(" ++ parent_repr ++ ", signature=" ++ sig_repr ++
      ", variant_level=" ++ toString variant_level ++ ")"
  else
    tp_name ++ "(" ++ parent_repr ++ ", signature=" ++ sig_repr ++ ")"

/-! ## PendingCall bridge (`pending-call-impl.h`) -/

/-- A raw libdbus reply message (`DBusMessage *`), still owned by the wire
library when stolen from the pending call. -/
structure DBusMessage where
  id : Nat
deriving Repr, DecidableEq

/-- The Python-side `Message` object that `Message_ConsumeDBusMessage`
builds by taking ownership of a wire message. -/
structure Message where
  wire : DBusMessage
deriving Repr, DecidableEq

/-- The observable events of `_pending_call_notify_function`, in program
order: the GIL acquisition, the reply steal, the defensive warning, the
handler invocation (with its single argument and its outcome — `none`
models a raising handler) and the GIL release. -/
inductive NotifyEv where
  | ensure
  | stealReply
  | warn
  | callHandler (arg : Message) (ret : Option PyVal)
  | release
deriving Repr

/-- Is this event the GIL acquisition? -/
def NotifyEv.isEnsure : NotifyEv → Bool
  | .ensure => true
  | _ => false

/-- Is this event the GIL release? -/
def NotifyEv.isRelease : NotifyEv → Bool
  | .release => true
  | _ => false

/-- Is this event a handler invocation? -/
def NotifyEv.isCall : NotifyEv → Bool
  | .callHandler _ _ => true
  | _ => false

/-- Is this event the defensive warning? -/
def NotifyEv.isWarn : NotifyEv → Bool
  | .warn => true
  | _ => false

/-- `_pending_call_notify_function` (lines 73-98): ensure the GIL, steal
the reply; if there is none, warn (non-fatally) and fall through; if
decoding it into a `Message` fails (`Message_ConsumeDBusMessage` returned
NULL on OOM), do nothing; otherwise call the handler with the message as
its only argument and `Py_XDECREF` the result; finally release the GIL on
the single shared exit.  `consume` is the external `Message` decode step
and `handler` the stored callable; the value returned is the event
trace. -/
def pending_call_notify_function (reply : Option DBusMessage)
    (consume : DBusMessage → Option Message)
    (handler : Message → Option PyVal) : List NotifyEv :=
  [.ensure, .stealReply] ++
  (match reply with
   | none => [.warn]
   | some msg =>
       match consume msg with
       | none => []
       | some m => [.callHandler m (handler m)]) ++
  [.release]

/-- The `PendingCall` struct (lines 38-41): it owns one
`DBusPendingCall *` (modelled by an id; `none` is a NULL field, which the
constructor never produces but `tp_dealloc` guards against). -/
structure PendingCall where
  pc : Option Nat
deriving Repr, DecidableEq

/-- Summary of the externally observable effects of one run of
`PendingCall_ConsumeDBusPendingCall`: the returned object (or NULL), and
how often each collaborator operation ran — `dbus_pending_call_cancel`,
`dbus_pending_call_unref`, `Py_INCREF`/`Py_DECREF` on the callable — plus
whether a memory error was reported and whether the notify registration
is in place afterwards. -/
structure ConsumeOutcome where
  result : Option PendingCall
  memErrorReported : Bool
  cancels : Nat
  unrefs : Nat
  handlerIncrefs : Nat
  handlerDecrefs : Nat
  registered : Bool
deriving Repr

/-- `PendingCall_ConsumeDBusPendingCall` (lines 116-151), parametrised by
the two fallible steps: `allocOk` is whether `PyObject_New` succeeds
(failing, it reports the memory error itself), `setNotifyOk` is the
return of `dbus_pending_call_set_notify`.  On allocation failure: cancel
and unref the handle, return NULL (the callable was never referenced).
On registration failure: report `PyErr_NoMemory`, drop the callable
reference just taken, free the object, cancel and unref the handle,
return NULL.  On success: the callable reference is held by the
registration and `self->pc` stores the handle. -/
def PendingCall_ConsumeDBusPendingCall (pc : Nat) (allocOk setNotifyOk : Bool) :
    ConsumeOutcome :=
  if ¬ allocOk then
    { result := none, memErrorReported := true, cancels := 1, unrefs := 1,
      handlerIncrefs := 0, handlerDecrefs := 0, registered := false }
  else if ¬ setNotifyOk then
    { result := none, memErrorReported := true, cancels := 1, unrefs := 1,
      handlerIncrefs := 1, handlerDecrefs := 1, registered := false }
  else
    { result := some { pc := some pc }, memErrorReported := false,
      cancels := 0, unrefs := 0, handlerIncrefs := 1, handlerDecrefs := 0,
      registered := true }

/-- `PendingCall_tp_dealloc` (lines 153-162): unref the handle exactly
once if the field is set; the value returned is the number of
`dbus_pending_call_unref` calls made. -/
def PendingCall_tp_dealloc (self : PendingCall) : Nat :=
  match self.pc with
  | some _ => 1
  | none => 0

/-- A sample `Signature` collaborator used to exercise the theorems on
concrete inputs: it validates strings (keeping their text) and rejects
everything else. -/
def strCtor : PyVal → Except Unit String
  | .str s => .ok s
  | _ => .error ()

/-- A `Signature` collaborator that rejects every input, for exercising
failure propagation. -/
def rejectCtor : PyVal → Except Unit String := fun _ => .error ()

/-! ## General lemmas about the embedding -/

theorem except_bind_ok {α β : Type} (x : Except Unit α)
    (f : α → Except Unit β) (b : β) :
    x >>= f = .ok b ↔ ∃ a, x = .ok a ∧ f a = .ok b := by
  cases x with
  | error e => simp [Bind.bind, Except.bind]
  | ok a => simp [Bind.bind, Except.bind]

/-- Inversion of `Array_tp_new`: the allocation always yields an empty
list with a `None` signature, and the `variant_level` is `0` when the
keyword is absent and the keyword's integer value when present. -/
theorem Array_tp_new_inv {kwargs : List (String × PyVal)} {a : ArrayObj}
    (h : Array_tp_new kwargs = .ok a) :
    a.elems = [] ∧ a.signature = .pynone ∧
      ((lookupKw kwargs variant_level_const = none ∧ a.variant_level = 0) ∨
       (∃ n : Int, lookupKw kwargs variant_level_const = some (.int n) ∧
          a.variant_level = n)) := by
  unfold Array_tp_new at h
  cases hk : lookupKw kwargs variant_level_const with
  | none =>
      rw [hk] at h
      cases h
      exact ⟨rfl, rfl, Or.inl ⟨rfl, rfl⟩⟩
  | some v =>
      rw [hk] at h
      cases v <;> simp [PyInt_AsLong, Bind.bind, Except.bind] at h
      rename_i n
      cases h
      exact ⟨rfl, rfl, Or.inr ⟨n, rfl, rfl⟩⟩

/-- Inversion of `Dict_tp_new`, same shape as `Array_tp_new_inv`. -/
theorem Dict_tp_new_inv {kwargs : List (String × PyVal)} {d : DictObj}
    (h : Dict_tp_new kwargs = .ok d) :
    d.entries = [] ∧ d.signature = .pynone ∧
      ((lookupKw kwargs variant_level_const = none ∧ d.variant_level = 0) ∨
       (∃ n : Int, lookupKw kwargs variant_level_const = some (.int n) ∧
          d.variant_level = n)) := by
  unfold Dict_tp_new at h
  cases hk : lookupKw kwargs variant_level_const with
  | none =>
      rw [hk] at h
      cases h
      exact ⟨rfl, rfl, Or.inl ⟨rfl, rfl⟩⟩
  | some v =>
      rw [hk] at h
      cases v <;> simp [PyInt_AsLong, Bind.bind, Except.bind] at h
      rename_i n
      cases h
      exact ⟨rfl, rfl, Or.inr ⟨n, rfl, rfl⟩⟩

/-- Inversion of `Array_tp_init`: a successful initialisation factors into
a successful argument parse, signature normalisation and list-base
population; the result keeps every other field of `self` — in particular
its `variant_level` — and its elements come from the new iterable
alone. -/
theorem Array_tp_init_inv {self : ArrayObj} {args : List PyVal}
    {kwargs : List (String × PyVal)} {ctor : PyVal → Except Unit String}
    {a : ArrayObj} (h : Array_tp_init self args kwargs ctor = .ok a) :
    ∃ objOpt sigOpt vlOpt sg el,
      parse3 ["iterable", "signature", "variant_level"] args kwargs
        = .ok (objOpt, sigOpt, vlOpt) ∧
      normalize_signature ctor sigOpt = .ok sg ∧
      list_tp_init (objOpt.getD (.tuple [])) = .ok el ∧
      a = { self with elems := el, signature := sg } := by
  unfold Array_tp_init at h
  rw [except_bind_ok] at h
  obtain ⟨p, hp, h⟩ := h
  obtain ⟨objOpt, sigOpt, vlOpt⟩ := p
  simp only at h
  rw [except_bind_ok] at h
  obtain ⟨sg, hsg, h⟩ := h
  rw [except_bind_ok] at h
  obtain ⟨el, hel, h⟩ := h
  cases h
  exact ⟨objOpt, sigOpt, vlOpt, sg, el, hp, hsg, hel, rfl⟩

/-- Inversion of `Dict_tp_init`: same factoring; the new entries are the
dict-base merge of the old entries with the new mapping, and every other
field of `self` is kept. -/
theorem Dict_tp_init_inv {self : DictObj} {args : List PyVal}
    {kwargs : List (String × PyVal)} {ctor : PyVal → Except Unit String}
    {d : DictObj} (h : Dict_tp_init self args kwargs ctor = .ok d) :
    ∃ objOpt sigOpt vlOpt sg es,
      parse3 ["mapping_or_iterable", "signature", "variant_level"] args kwargs
        = .ok (objOpt, sigOpt, vlOpt) ∧
      normalize_signature ctor sigOpt = .ok sg ∧
      dict_tp_init self.entries (objOpt.getD (.tuple [])) = .ok es ∧
      d = { self with entries := es, signature := sg } := by
  unfold Dict_tp_init at h
  rw [except_bind_ok] at h
  obtain ⟨p, hp, h⟩ := h
  obtain ⟨objOpt, sigOpt, vlOpt⟩ := p
  simp only at h
  rw [except_bind_ok] at h
  obtain ⟨sg, hsg, h⟩ := h
  rw [except_bind_ok] at h
  obtain ⟨es, hes, h⟩ := h
  cases h
  exact ⟨objOpt, sigOpt, vlOpt, sg, es, hp, hsg, hes, rfl⟩

/-- Inversion of `Array_construct` into its two phases. -/
theorem Array_construct_inv {args : List PyVal}
    {kwargs : List (String × PyVal)} {ctor : PyVal → Except Unit String}
    {a : ArrayObj} (h : Array_construct args kwargs ctor = .ok a) :
    ∃ a0, Array_tp_new kwargs = .ok a0 ∧
      Array_tp_init a0 args kwargs ctor = .ok a := by
  unfold Array_construct at h
  rwa [except_bind_ok] at h

/-- Inversion of `Dict_construct` into its two phases. -/
theorem Dict_construct_inv {args : List PyVal}
    {kwargs : List (String × PyVal)} {ctor : PyVal → Except Unit String}
    {d : DictObj} (h : Dict_construct args kwargs ctor = .ok d) :
    ∃ d0, Dict_tp_new kwargs = .ok d0 ∧
      Dict_tp_init d0 args kwargs ctor = .ok d := by
  unfold Dict_construct at h
  rwa [except_bind_ok] at h

/-- Inversion of `Struct_parse_kwargs`: the parsed signature is the raw
keyword value and the parsed `variant_level` is the keyword value when
that is an int, absent when the keyword is absent. -/
theorem Struct_parse_kwargs_inv {kwargs : List (String × PyVal)}
    {sigOpt vlOpt : Option PyVal}
    (h : Struct_parse_kwargs kwargs = .ok (sigOpt, vlOpt)) :
    sigOpt = lookupKw kwargs signature_const ∧
      ((lookupKw kwargs variant_level_const = none ∧ vlOpt = none) ∨
       (∃ n : Int, lookupKw kwargs variant_level_const = some (.int n) ∧
          vlOpt = some (.int n))) := by
  unfold Struct_parse_kwargs at h
  split at h
  · exact Except.noConfusion h
  · cases hk : lookupKw kwargs variant_level_const with
    | none =>
        rw [hk] at h
        cases h
        exact ⟨rfl, Or.inl ⟨rfl, rfl⟩⟩
    | some v =>
        rw [hk] at h
        cases v <;> simp at h
        rename_i n
        obtain ⟨h1, h2⟩ := h
        exact ⟨h1.symm, Or.inr ⟨n, rfl, h2.symm⟩⟩

/-- Inversion of `Struct_tp_new`: a successful construction factors into
the arity check, the keyword parse, tuple allocation from the single
positional argument and signature normalisation; the stored
`variant_level` is the parsed int object, defaulting to int `0`. -/
theorem Struct_tp_new_inv {args : List PyVal}
    {kwargs : List (String × PyVal)} {ctor : PyVal → Except Unit String}
    {s : StructObj} (h : Struct_tp_new args kwargs ctor = .ok s) :
    ∃ sigOpt vlOpt el sg,
      args.length = 1 ∧
      Struct_parse_kwargs kwargs = .ok (sigOpt, vlOpt) ∧
      tuple_tp_new (args.getD 0 .pynone) = .ok el ∧
      normalize_signature ctor sigOpt = .ok sg ∧
      s = { elems := el, signature := sg,
            variant_level := vlOpt.getD (.int 0) } := by
  unfold Struct_tp_new at h
  by_cases hlen : args.length = 1
  · rw [if_neg (by simp [hlen])] at h
    rw [except_bind_ok] at h
    obtain ⟨p, hp, h⟩ := h
    obtain ⟨sigOpt, vlOpt⟩ := p
    simp only at h
    rw [except_bind_ok] at h
    obtain ⟨el, hel, h⟩ := h
    rw [except_bind_ok] at h
    obtain ⟨sg, hsg, h⟩ := h
    cases h
    exact ⟨sigOpt, vlOpt, el, sg, hlen, hp, hel, hsg, rfl⟩
  · rw [if_pos hlen] at h
    cases h

theorem except_map_ok {α β : Type} (f : α → β) (x : Except Unit α) (b : β) :
    Except.map f x = .ok b ↔ ∃ a, x = .ok a ∧ b = f a := by
  cases x
  · simp [Except.map]
  · simp [Except.map]
    exact eq_comm

/-- Inversion of `normalize_signature`: a successful normalisation yields
`None` or a `Signature` instance, never anything else. -/
theorem normalize_signature_inv {ctor : PyVal → Except Unit String}
    {sigOpt : Option PyVal} {sg : PyVal}
    (h : normalize_signature ctor sigOpt = .ok sg) :
    sg = .pynone ∨ ∃ t, sg = .sig t := by
  unfold normalize_signature at h
  split at h
  · cases h
    exact Or.inl rfl
  · cases h
    exact Or.inr ⟨_, rfl⟩
  · rw [except_map_ok] at h
    obtain ⟨t, _, hb⟩ := h
    exact Or.inr ⟨t, hb⟩

theorem except_ok_bind {α β : Type} (a : α) (f : α → Except Unit β) :
    (Except.ok a : Except Unit α) >>= f = f a := rfl

theorem except_error_bind {α β : Type} (f : α → Except Unit β) :
    (Except.error () : Except Unit α) >>= f = .error () := rfl

/-! ## Claims -/

/-- C1, counterexample: the claim "there is no integer value `v < 0` such
that passing `variant_level=v` as a keyword argument yields a constructed
container with `variant_level = v`" is false on the code — `Array_tp_new`
stores `PyInt_AsLong(variant_level)` without any sign check, so
`Array([], variant_level=-1)` constructs successfully with
`variant_level = -1`. -/
theorem C1_counterexample :
    ∃ v : Int, v < 0 ∧ ∃ a : ArrayObj,
      Array_construct [] [("variant_level", PyVal.int v)] rejectCtor
        = .ok a ∧ a.variant_level = v := by
  refine ⟨-1, by norm_num,
    { elems := [], signature := .pynone, variant_level := -1 }, ?_, rfl⟩
  rfl

/-- C1, amended: each container's `variant_level` is read from the
`variant_level` keyword argument and stored exactly as given, with no
non-negativity check — when the keyword is absent it is `0`, and when it
is an int with value `n` (of either sign) the stored `variant_level` is
`n`.  Non-negativity therefore holds only for the inputs the caller keeps
non-negative. -/
theorem C1_theorem :
    (∀ (args : List PyVal) (kwargs : List (String × PyVal))
        (ctor : PyVal → Except Unit String) (a : ArrayObj),
        Array_construct args kwargs ctor = .ok a →
        (lookupKw kwargs variant_level_const = none → a.variant_level = 0) ∧
        (∀ n : Int, lookupKw kwargs variant_level_const = some (.int n) →
            a.variant_level = n)) ∧
    (∀ (args : List PyVal) (kwargs : List (String × PyVal))
        (ctor : PyVal → Except Unit String) (d : DictObj),
        Dict_construct args kwargs ctor = .ok d →
        (lookupKw kwargs variant_level_const = none → d.variant_level = 0) ∧
        (∀ n : Int, lookupKw kwargs variant_level_const = some (.int n) →
            d.variant_level = n)) ∧
    (∀ (args : List PyVal) (kwargs : List (String × PyVal))
        (ctor : PyVal → Except Unit String) (s : StructObj),
        Struct_tp_new args kwargs ctor = .ok s →
        (lookupKw kwargs variant_level_const = none →
            s.variant_level = .int 0) ∧
        (∀ n : Int, lookupKw kwargs variant_level_const = some (.int n) →
            s.variant_level = .int n)) := by
  refine ⟨?_, ?_, ?_⟩
  · intro args kwargs ctor a h
    obtain ⟨a0, hnew, hinit⟩ := Array_construct_inv h
    obtain ⟨-, -, hvl⟩ := Array_tp_new_inv hnew
    obtain ⟨o, so, vo, sg, el, -, -, -, rfl⟩ := Array_tp_init_inv hinit
    constructor
    · intro hnone
      rcases hvl with ⟨-, h0⟩ | ⟨n, hsome, -⟩
      · exact h0
      · rw [hnone] at hsome
        cases hsome
    · intro n hn
      rcases hvl with ⟨hnone, -⟩ | ⟨m, hsome, hm⟩
      · rw [hn] at hnone
        cases hnone
      · rw [hn] at hsome
        injection hsome with hv
        injection hv with hnm
        exact hm.trans hnm.symm
  · intro args kwargs ctor d h
    obtain ⟨d0, hnew, hinit⟩ := Dict_construct_inv h
    obtain ⟨-, -, hvl⟩ := Dict_tp_new_inv hnew
    obtain ⟨o, so, vo, sg, es, -, -, -, rfl⟩ := Dict_tp_init_inv hinit
    constructor
    · intro hnone
      rcases hvl with ⟨-, h0⟩ | ⟨n, hsome, -⟩
      · exact h0
      · rw [hnone] at hsome
        cases hsome
    · intro n hn
      rcases hvl with ⟨hnone, -⟩ | ⟨m, hsome, hm⟩
      · rw [hn] at hnone
        cases hnone
      · rw [hn] at hsome
        injection hsome with hv
        injection hv with hnm
        exact hm.trans hnm.symm
  · intro args kwargs ctor s h
    obtain ⟨sigOpt, vlOpt, el, sg, -, hp, -, -, rfl⟩ := Struct_tp_new_inv h
    obtain ⟨-, hvl⟩ := Struct_parse_kwargs_inv hp
    constructor
    · intro hnone
      rcases hvl with ⟨-, h0⟩ | ⟨n, hsome, -⟩
      · rw [h0]
        rfl
      · rw [hnone] at hsome
        cases hsome
    · intro n hn
      rcases hvl with ⟨hnone, -⟩ | ⟨m, hsome, hm⟩
      · rw [hn] at hnone
        cases hnone
      · rw [hn] at hsome
        injection hsome with hv
        injection hv with hnm
        rw [hm, hnm]
        rfl

/-- C1, witness: the amended theorem applied at concrete inputs — an
`Array()` with no keywords has `variant_level = 0`, and a
`Struct((),variant_level=3)` stores int `3`. -/
theorem C1_witness :
    (Array_construct [] [] rejectCtor
        = .ok { elems := [], signature := .pynone, variant_level := 0 } ∧
      ({ elems := [], signature := .pynone, variant_level := 0 } :
        ArrayObj).variant_level = 0) ∧
    (Struct_tp_new [PyVal.tuple []] [("variant_level", PyVal.int 3)]
        rejectCtor
        = .ok { elems := [], signature := .pynone,
                variant_level := .int 3 } ∧
      ({ elems := [], signature := .pynone, variant_level := .int 3 } :
        StructObj).variant_level = .int 3) :=
  ⟨⟨rfl, (C1_theorem.1 [] [] rejectCtor _ rfl).1 rfl⟩,
   ⟨rfl, (C1_theorem.2.2 [PyVal.tuple []]
      [("variant_level", PyVal.int 3)] rejectCtor _ rfl).2 3 rfl⟩⟩

/-- C2: for Array and Dict, `variant_level` comes only from the keyword
arguments at allocation (a positional third argument leaves it `0`),
defaults to `0`, is untouched by any re-initialisation (`tp_init` never
writes it), and direct attribute assignment fails because the member is
declared `READONLY`. -/
theorem C2_theorem :
    (∀ (args : List PyVal) (kwargs : List (String × PyVal))
        (ctor : PyVal → Except Unit String) (a : ArrayObj),
        lookupKw kwargs variant_level_const = none →
        Array_construct args kwargs ctor = .ok a → a.variant_level = 0) ∧
    (∀ (args : List PyVal) (kwargs : List (String × PyVal))
        (ctor : PyVal → Except Unit String) (d : DictObj),
        lookupKw kwargs variant_level_const = none →
        Dict_construct args kwargs ctor = .ok d → d.variant_level = 0) ∧
    (∀ (self : ArrayObj) (args : List PyVal)
        (kwargs : List (String × PyVal))
        (ctor : PyVal → Except Unit String) (a : ArrayObj),
        Array_tp_init self args kwargs ctor = .ok a →
        a.variant_level = self.variant_level) ∧
    (∀ (self : DictObj) (args : List PyVal)
        (kwargs : List (String × PyVal))
        (ctor : PyVal → Except Unit String) (d : DictObj),
        Dict_tp_init self args kwargs ctor = .ok d →
        d.variant_level = self.variant_level) ∧
    member_assign Array_tp_members variant_level_const = .error () ∧
    member_assign Dict_tp_members variant_level_const = .error () := by
  refine ⟨?_, ?_, ?_, ?_, rfl, rfl⟩
  · intro args kwargs ctor a hnone h
    obtain ⟨a0, hnew, hinit⟩ := Array_construct_inv h
    obtain ⟨-, -, hvl⟩ := Array_tp_new_inv hnew
    obtain ⟨o, so, vo, sg, el, -, -, -, rfl⟩ := Array_tp_init_inv hinit
    rcases hvl with ⟨-, h0⟩ | ⟨n, hsome, -⟩
    · exact h0
    · rw [hnone] at hsome
      cases hsome
  · intro args kwargs ctor d hnone h
    obtain ⟨d0, hnew, hinit⟩ := Dict_construct_inv h
    obtain ⟨-, -, hvl⟩ := Dict_tp_new_inv hnew
    obtain ⟨o, so, vo, sg, es, -, -, -, rfl⟩ := Dict_tp_init_inv hinit
    rcases hvl with ⟨-, h0⟩ | ⟨n, hsome, -⟩
    · exact h0
    · rw [hnone] at hsome
      cases hsome
  · intro self args kwargs ctor a h
    obtain ⟨o, so, vo, sg, el, -, -, -, rfl⟩ := Array_tp_init_inv h
    rfl
  · intro self args kwargs ctor d h
    obtain ⟨o, so, vo, sg, es, -, -, -, rfl⟩ := Dict_tp_init_inv h
    rfl

/-- C2, witness: `Array([1], "i", 7)` — the `7` is the positional third
argument — still has `variant_level = 0`; re-initialising an array whose
`variant_level` is `5` with `variant_level=9` leaves it `5`. -/
theorem C2_witness :
    (Array_construct [PyVal.list [PyVal.int 1], PyVal.str "i", PyVal.int 7]
        [] strCtor
        = .ok { elems := [PyVal.int 1], signature := .sig "i",
                variant_level := 0 } ∧
      ({ elems := [PyVal.int 1], signature := .sig "i",
         variant_level := 0 } : ArrayObj).variant_level = 0) ∧
    (Array_tp_init
        { elems := [PyVal.int 9], signature := .sig "q", variant_level := 5 }
        [PyVal.list [PyVal.int 1]] [("variant_level", PyVal.int 9)] strCtor
        = .ok { elems := [PyVal.int 1], signature := .pynone,
                variant_level := 5 } ∧
      ({ elems := [PyVal.int 1], signature := .pynone,
         variant_level := 5 } : ArrayObj).variant_level = 5) :=
  ⟨⟨rfl, C2_theorem.1
      [PyVal.list [PyVal.int 1], PyVal.str "i", PyVal.int 7] [] strCtor
      _ rfl rfl⟩,
   ⟨rfl, (C2_theorem.2.2.1
      { elems := [PyVal.int 9], signature := .sig "q", variant_level := 5 }
      [PyVal.list [PyVal.int 1]] [("variant_level", PyVal.int 9)] strCtor
      _ rfl).trans rfl⟩⟩

/-- C3: an absent signature or one that already is a `Signature` instance
is kept as-is; anything else goes through the `Signature` collaborator's
single-argument constructor, whose failure makes the whole construction
fail; consequently every successfully constructed container carries a
signature that is `None` or a `Signature` instance, never a raw value. -/
theorem C3_theorem :
    (∀ (args : List PyVal) (kwargs : List (String × PyVal))
        (ctor : PyVal → Except Unit String) (a : ArrayObj),
        Array_construct args kwargs ctor = .ok a →
        a.signature = .pynone ∨ ∃ t, a.signature = .sig t) ∧
    (∀ (args : List PyVal) (kwargs : List (String × PyVal))
        (ctor : PyVal → Except Unit String) (d : DictObj),
        Dict_construct args kwargs ctor = .ok d →
        d.signature = .pynone ∨ ∃ t, d.signature = .sig t) ∧
    (∀ (args : List PyVal) (kwargs : List (String × PyVal))
        (ctor : PyVal → Except Unit String) (s : StructObj),
        Struct_tp_new args kwargs ctor = .ok s →
        s.signature = .pynone ∨ ∃ t, s.signature = .sig t) ∧
    (∀ ctor : PyVal → Except Unit String,
        normalize_signature ctor none = .ok .pynone) ∧
    (∀ ctor : PyVal → Except Unit String,
        normalize_signature ctor (some .pynone) = .ok .pynone) ∧
    (∀ (ctor : PyVal → Except Unit String) (t : String),
        normalize_signature ctor (some (.sig t)) = .ok (.sig t)) ∧
    (∀ (self : ArrayObj) (args : List PyVal)
        (kwargs : List (String × PyVal))
        (ctor : PyVal → Except Unit String)
        (p : Option PyVal × Option PyVal × Option PyVal),
        parse3 ["iterable", "signature", "variant_level"] args kwargs
          = .ok p →
        normalize_signature ctor p.2.1 = .error () →
        Array_tp_init self args kwargs ctor = .error ()) ∧
    (∀ (self : DictObj) (args : List PyVal)
        (kwargs : List (String × PyVal))
        (ctor : PyVal → Except Unit String)
        (p : Option PyVal × Option PyVal × Option PyVal),
        parse3 ["mapping_or_iterable", "signature", "variant_level"] args
          kwargs = .ok p →
        normalize_signature ctor p.2.1 = .error () →
        Dict_tp_init self args kwargs ctor = .error ()) ∧
    (∀ (args : List PyVal) (kwargs : List (String × PyVal))
        (ctor : PyVal → Except Unit String)
        (sigOpt vlOpt : Option PyVal) (el : List PyVal),
        args.length = 1 →
        Struct_parse_kwargs kwargs = .ok (sigOpt, vlOpt) →
        tuple_tp_new (args.getD 0 .pynone) = .ok el →
        normalize_signature ctor sigOpt = .error () →
        Struct_tp_new args kwargs ctor = .error ()) := by
  refine ⟨?_, ?_, ?_, fun _ => rfl, fun _ => rfl, fun _ _ => rfl,
    ?_, ?_, ?_⟩
  · intro args kwargs ctor a h
    obtain ⟨a0, hnew, hinit⟩ := Array_construct_inv h
    obtain ⟨o, so, vo, sg, el, -, hsg, -, rfl⟩ := Array_tp_init_inv hinit
    exact normalize_signature_inv hsg
  · intro args kwargs ctor d h
    obtain ⟨d0, hnew, hinit⟩ := Dict_construct_inv h
    obtain ⟨o, so, vo, sg, es, -, hsg, -, rfl⟩ := Dict_tp_init_inv hinit
    exact normalize_signature_inv hsg
  · intro args kwargs ctor s h
    obtain ⟨sigOpt, vlOpt, el, sg, -, -, -, hsg, rfl⟩ := Struct_tp_new_inv h
    exact normalize_signature_inv hsg
  · intro self args kwargs ctor p hp hns
    obtain ⟨o, so, vo⟩ := p
    simp only at hns
    simp [Array_tp_init, hp, hns, Bind.bind, Except.bind]
  · intro self args kwargs ctor p hp hns
    obtain ⟨o, so, vo⟩ := p
    simp only at hns
    simp [Dict_tp_init, hp, hns, Bind.bind, Except.bind]
  · intro args kwargs ctor sigOpt vlOpt el hlen hp hel hns
    simp [Struct_tp_new, hlen, hp, hel, hns, Bind.bind, Except.bind]
    split <;> rfl

/-- C3, witness: `Array([], signature=1)` fails under a collaborator that
rejects non-strings, while a constructed `Dict({}, signature="ii")` has a
`Signature` instance. -/
theorem C3_witness :
    (Dict_construct [] [("signature", PyVal.str "ii")] strCtor
        = .ok { entries := [], signature := .sig "ii", variant_level := 0 } ∧
      (({ entries := [], signature := .sig "ii", variant_level := 0 } :
          DictObj).signature = .pynone ∨
        ∃ t, ({ entries := [], signature := .sig "ii", variant_level := 0 } :
          DictObj).signature = .sig t)) ∧
    (parse3 ["iterable", "signature", "variant_level"] []
        [("signature", PyVal.int 5)] = .ok (none, some (PyVal.int 5), none) ∧
      normalize_signature strCtor (some (PyVal.int 5)) = .error () ∧
      Array_tp_init { elems := [], signature := .pynone, variant_level := 0 }
        [] [("signature", PyVal.int 5)] strCtor = .error ()) :=
  ⟨⟨rfl, C3_theorem.2.1 [] [("signature", PyVal.str "ii")] strCtor _ rfl⟩,
   ⟨rfl, rfl, C3_theorem.2.2.2.2.2.2.1
      { elems := [], signature := .pynone, variant_level := 0 }
      [] [("signature", PyVal.int 5)] strCtor
      (none, some (PyVal.int 5), none) rfl rfl⟩⟩

/-- C4 (the `tp_setattro` slot `Glue_immutable_setattro` is modelled from
the spec: it is repository code outside the provided sources): every
attribute assignment on a constructed Struct fails with an immutability
violation and never yields an updated object, so the struct's fields stay
as construction set them. -/
theorem C4_theorem :
    ∀ (args : List PyVal) (kwargs : List (String × PyVal))
      (ctor : PyVal → Except Unit String) (s : StructObj)
      (name : String) (v : PyVal),
      Struct_tp_new args kwargs ctor = .ok s →
      Glue_immutable_setattro s name v = .error () ∧
      ∀ s', Glue_immutable_setattro s name v ≠ .ok s' :=
  fun _ _ _ _ _ _ _ =>
    ⟨rfl, fun _ h => Except.noConfusion h⟩

/-- C4, witness: the spec's own example — `Struct((1, "a"),
signature="(is)")` constructs, any attribute assignment on it fails, and
its element sequence is `(1, "a")`. -/
theorem C4_witness :
    Struct_tp_new [PyVal.tuple [PyVal.int 1, PyVal.str "a"]]
        [("signature", PyVal.str "(is)")] strCtor
      = .ok { elems := [PyVal.int 1, PyVal.str "a"],
              signature := .sig "(is)", variant_level := .int 0 } ∧
    Glue_immutable_setattro
        { elems := [PyVal.int 1, PyVal.str "a"],
          signature := .sig "(is)", variant_level := .int 0 }
        "variant_level" (PyVal.int 5) = .error () ∧
    ({ elems := [PyVal.int 1, PyVal.str "a"],
       signature := .sig "(is)", variant_level := .int 0 } :
      StructObj).elems = [PyVal.int 1, PyVal.str "a"] :=
  ⟨rfl,
   (C4_theorem [PyVal.tuple [PyVal.int 1, PyVal.str "a"]]
      [("signature", PyVal.str "(is)")] strCtor _
      "variant_level" (PyVal.int 5) rfl).1,
   rfl⟩

/-- C5, counterexample: the claim makes the `", variant_level=<n>"` clause
appear exactly when `variant_level ≠ 0`, but the code tests
`variant_level > 0`; a constructible array with `variant_level = -1`
prints without the clause although its `variant_level` is not `0`. -/
theorem C5_counterexample :
    ∃ a : ArrayObj,
      Array_construct [] [("variant_level", PyVal.int (-1))] rejectCtor
        = .ok a ∧
      a.variant_level ≠ 0 ∧
      Array_tp_repr "dbus.Array" "[]" "None" a
        = "dbus.Array([], signature=None)" ∧
      Array_tp_repr "dbus.Array" "[]" "None" a
        ≠ "dbus.Array([], signature=None, variant_level=-1)" := by
  refine ⟨{ elems := [], signature := .pynone, variant_level := -1 },
    rfl, by norm_num, rfl, by decide⟩

/-- C5, amended: each container's textual representation is
`name(parent, signature=sig)` with the `", variant_level=<n>"` clause
appended exactly when `variant_level > 0` (so the clause is omitted for
every `variant_level ≤ 0`, not only `0`), and the base container's repr
appears verbatim as a nested substring. -/
theorem C5_theorem :
    (∀ (nm pr sr : String) (a : ArrayObj),
       (0 < a.variant_level →
          Array_tp_repr nm pr sr a =
            nm ++ "(" ++ pr ++ ", signature=" ++ sr ++
              ", variant_level=" ++ toString a.variant_level ++ ")") ∧
       (a.variant_level ≤ 0 →
          Array_tp_repr nm pr sr a =
            nm ++ "(" ++ pr ++ ", signature=" ++ sr ++ ")") ∧
       (∃ pre post, Array_tp_repr nm pr sr a = pre ++ (pr ++ post))) ∧
    (∀ (nm pr sr : String) (d : DictObj),
       (0 < d.variant_level →
          Dict_tp_repr nm pr sr d =
            nm ++ "(" ++ pr ++ ", signature=" ++ sr ++
              ", variant_level=" ++ toString d.variant_level ++ ")") ∧
       (d.variant_level ≤ 0 →
          Dict_tp_repr nm pr sr d =
            nm ++ "(" ++ pr ++ ", signature=" ++ sr ++ ")") ∧
       (∃ pre post, Dict_tp_repr nm pr sr d = pre ++ (pr ++ post))) ∧
    (∀ (nm pr sr : String) (s : StructObj) (n : Int),
       s.variant_level = .int n →
       (0 < n →
          Struct_tp_repr nm pr sr s =
            nm ++ "(" ++ pr ++ ", signature=" ++ sr ++
              ", variant_level=" ++ toString n ++ ")") ∧
       (n ≤ 0 →
          Struct_tp_repr nm pr sr s =
            nm ++ "(" ++ pr ++ ", signature=" ++ sr ++ ")") ∧
       (∃ pre post, Struct_tp_repr nm pr sr s = pre ++ (pr ++ post))) := by
  refine ⟨?_, ?_, ?_⟩
  · intro nm pr sr a
    refine ⟨fun h => ?_, fun h => ?_, ?_⟩
    · unfold Array_tp_repr
      rw [if_pos h]
    · unfold Array_tp_repr
      rw [if_neg (not_lt.mpr h)]
    · by_cases hv : 0 < a.variant_level
      · refine ⟨nm ++ "(", ", signature=" ++ sr ++ ", variant_level=" ++
          toString a.variant_level ++ ")", ?_⟩
        unfold Array_tp_repr
        rw [if_pos hv]
        simp [String.append_assoc]
      · refine ⟨nm ++ "(", ", signature=" ++ sr ++ ")", ?_⟩
        unfold Array_tp_repr
        rw [if_neg hv]
        simp [String.append_assoc]
  · intro nm pr sr d
    refine ⟨fun h => ?_, fun h => ?_, ?_⟩
    · unfold Dict_tp_repr
      rw [if_pos h]
    · unfold Dict_tp_repr
      rw [if_neg (not_lt.mpr h)]
    · by_cases hv : 0 < d.variant_level
      · refine ⟨nm ++ "(", ", signature=" ++ sr ++ ", variant_level=" ++
          toString d.variant_level ++ ")", ?_⟩
        unfold Dict_tp_repr
        rw [if_pos hv]
        simp [String.append_assoc]
      · refine ⟨nm ++ "(", ", signature=" ++ sr ++ ")", ?_⟩
        unfold Dict_tp_repr
        rw [if_neg hv]
        simp [String.append_assoc]
  · intro nm pr sr s n hvl
    refine ⟨fun h => ?_, fun h => ?_, ?_⟩
    · simp [Struct_tp_repr, hvl, h]
    · simp [Struct_tp_repr, hvl, not_lt.mpr h]
    · by_cases hv : 0 < n
      · refine ⟨nm ++ "(", ", signature=" ++ sr ++ ", variant_level=" ++
          toString n ++ ")", ?_⟩
        simp [Struct_tp_repr, hvl, hv, String.append_assoc]
      · refine ⟨nm ++ "(", ", signature=" ++ sr ++ ")", ?_⟩
        simp [Struct_tp_repr, hvl, hv, String.append_assoc]

/-- C5, witness: the amended theorem at concrete containers — an array
with `variant_level = 2` prints the clause, a dict with `variant_level =
0` omits it, a struct with stored int `1` prints it. -/
theorem C5_witness :
    ((0 : Int) < 2 ∧
      Array_tp_repr "dbus.Array" "[1, 2]" "None"
          { elems := [], signature := .pynone, variant_level := 2 }
        = "dbus.Array" ++ "(" ++ "[1, 2]" ++ ", signature=" ++ "None" ++
            ", variant_level=" ++ toString (2 : Int) ++ ")") ∧
    ((0 : Int) ≤ 0 ∧
      Dict_tp_repr "dbus.Dictionary" "\x7b\x7d" "None"
          { entries := [], signature := .pynone, variant_level := 0 }
        = "dbus.Dictionary" ++ "(" ++ "\x7b\x7d" ++ ", signature=" ++
            "None" ++ ")") ∧
    (({ elems := [], signature := .pynone, variant_level := .int 1 } :
        StructObj).variant_level = .int 1 ∧
      Struct_tp_repr "dbus.Struct" "()" "None"
          { elems := [], signature := .pynone, variant_level := .int 1 }
        = "dbus.Struct" ++ "(" ++ "()" ++ ", signature=" ++ "None" ++
            ", variant_level=" ++ toString (1 : Int) ++ ")") :=
  ⟨⟨by norm_num,
    (C5_theorem.1 "dbus.Array" "[1, 2]" "None"
      { elems := [], signature := .pynone, variant_level := 2 }).1
      (by norm_num)⟩,
   ⟨le_refl 0,
    (C5_theorem.2.1 "dbus.Dictionary" "\x7b\x7d" "None"
      { entries := [], signature := .pynone, variant_level := 0 }).2.1
      (le_refl 0)⟩,
   ⟨rfl,
    (C5_theorem.2.2 "dbus.Struct" "()" "None"
      { elems := [], signature := .pynone, variant_level := .int 1 }
      1 rfl).1 (by norm_num)⟩⟩

/-- C6: in the notification callback, an absent reply produces the
defensive warning and no handler invocation, and execution continues to
the GIL release; a stolen reply that decodes to a `Message` makes the
callback invoke the handler exactly once, with that message as its only
argument, and nothing after the call depends on the handler's return
value (the trace ends in the bare `release` whatever the handler
returns). -/
theorem C6_theorem :
    (∀ (consume : DBusMessage → Option Message)
        (handler : Message → Option PyVal),
        pending_call_notify_function none consume handler =
          [.ensure, .stealReply, .warn, .release]) ∧
    (∀ (w : DBusMessage) (m : Message)
        (consume : DBusMessage → Option Message)
        (handler : Message → Option PyVal),
        consume w = some m →
        pending_call_notify_function (some w) consume handler =
          [.ensure, .stealReply, .callHandler m (handler m), .release]) := by
  constructor
  · intro consume handler
    rfl
  · intro w m consume handler hm
    simp [pending_call_notify_function, hm]

/-- C6, witness: the trace equalities at a concrete reply, decoder and a
raising handler. -/
theorem C6_witness :
    (pending_call_notify_function none (fun w => some ⟨w⟩)
        (fun _ => none) = [.ensure, .stealReply, .warn, .release]) ∧
    ((fun w => some (⟨w⟩ : Message)) ⟨5⟩ = some ⟨⟨5⟩⟩ ∧
      pending_call_notify_function (some ⟨5⟩) (fun w => some ⟨w⟩)
          (fun _ => none) =
        [.ensure, .stealReply, .callHandler ⟨⟨5⟩⟩ none, .release]) :=
  ⟨C6_theorem.1 (fun w => some ⟨w⟩) (fun _ => none),
   ⟨rfl, C6_theorem.2 ⟨5⟩ ⟨⟨5⟩⟩ (fun w => some ⟨w⟩) (fun _ => none) rfl⟩⟩

/-- C7: on every path of the notification callback — absent reply, decode
failure, handler success and handler failure alike — the trace starts
with exactly one GIL acquisition, ends with exactly one GIL release, and
contains no other acquisition or release; so the exclusive-access claim
is taken before any host-side step and given back on every exit. -/
theorem C7_theorem :
    ∀ (reply : Option DBusMessage)
      (consume : DBusMessage → Option Message)
      (handler : Message → Option PyVal),
      (pending_call_notify_function reply consume handler).head?
          = some .ensure ∧
      (pending_call_notify_function reply consume handler).getLast?
          = some .release ∧
      (pending_call_notify_function reply consume handler).countP
          (fun e => e.isEnsure) = 1 ∧
      (pending_call_notify_function reply consume handler).countP
          (fun e => e.isRelease) = 1 := by
  intro reply consume handler
  cases reply with
  | none =>
      refine ⟨rfl, rfl, ?_, ?_⟩ <;>
        simp [pending_call_notify_function, List.countP, List.countP.go,
          NotifyEv.isEnsure, NotifyEv.isRelease]
  | some w =>
      cases hc : consume w with
      | none =>
          refine ⟨?_, ?_, ?_, ?_⟩ <;>
            simp [pending_call_notify_function, hc, List.countP,
              List.countP.go, NotifyEv.isEnsure, NotifyEv.isRelease,
              List.getLast?]
      | some m =>
          refine ⟨?_, ?_, ?_, ?_⟩ <;>
            simp [pending_call_notify_function, hc, List.countP,
              List.countP.go, NotifyEv.isEnsure, NotifyEv.isRelease,
              List.getLast?]

/-- C8: when `PyObject_New` fails, or when `dbus_pending_call_set_notify`
returns failure, the handle is cancelled once and unreffed once, the
callable's reference count is net unchanged, a memory error is reported,
no notification registration is left and no object is returned; on
success nothing is cancelled or unreffed during construction, the
callable reference is transferred to the registration, and the returned
bridge's destructor unrefs the handle exactly once. -/
theorem C8_theorem :
    (∀ (pc : Nat) (sOk : Bool),
        (PendingCall_ConsumeDBusPendingCall pc false sOk).result = none ∧
        (PendingCall_ConsumeDBusPendingCall pc false sOk).memErrorReported
            = true ∧
        (PendingCall_ConsumeDBusPendingCall pc false sOk).cancels = 1 ∧
        (PendingCall_ConsumeDBusPendingCall pc false sOk).unrefs = 1 ∧
        (PendingCall_ConsumeDBusPendingCall pc false sOk).handlerIncrefs =
          (PendingCall_ConsumeDBusPendingCall pc false sOk).handlerDecrefs ∧
        (PendingCall_ConsumeDBusPendingCall pc false sOk).registered
            = false) ∧
    (∀ pc : Nat,
        (PendingCall_ConsumeDBusPendingCall pc true false).result = none ∧
        (PendingCall_ConsumeDBusPendingCall pc true false).memErrorReported
            = true ∧
        (PendingCall_ConsumeDBusPendingCall pc true false).cancels = 1 ∧
        (PendingCall_ConsumeDBusPendingCall pc true false).unrefs = 1 ∧
        (PendingCall_ConsumeDBusPendingCall pc true false).handlerIncrefs =
          (PendingCall_ConsumeDBusPendingCall pc true false).handlerDecrefs ∧
        (PendingCall_ConsumeDBusPendingCall pc true false).registered
            = false) ∧
    (∀ pc : Nat,
        (PendingCall_ConsumeDBusPendingCall pc true true).cancels = 0 ∧
        (PendingCall_ConsumeDBusPendingCall pc true true).unrefs = 0 ∧
        (PendingCall_ConsumeDBusPendingCall pc true true).handlerIncrefs =
          (PendingCall_ConsumeDBusPendingCall pc true true).handlerDecrefs
            + 1 ∧
        (PendingCall_ConsumeDBusPendingCall pc true true).registered
            = true ∧
        ∃ b, (PendingCall_ConsumeDBusPendingCall pc true true).result
              = some b ∧
          PendingCall_tp_dealloc b = 1) :=
  ⟨fun _ _ => ⟨rfl, rfl, rfl, rfl, rfl, rfl⟩,
   fun _ => ⟨rfl, rfl, rfl, rfl, rfl, rfl⟩,
   fun pc => ⟨rfl, rfl, rfl, rfl, ⟨{ pc := some pc }, rfl, rfl⟩⟩⟩

/-- C9, counterexample: re-initialising an existing Dict does NOT replace
its stored elements — `PyDict_Type.tp_init` merges.  A dict built from
`{1: 10}` and re-initialised with `{2: 20}` holds both entries, not just
`{2: 20}` as replacement semantics would require. -/
theorem C9_counterexample :
    ∃ d d' : DictObj,
      Dict_construct [PyVal.dictv [(PyVal.int 1, PyVal.int 10)]] [] strCtor
        = .ok d ∧
      Dict_tp_init d [PyVal.dictv [(PyVal.int 2, PyVal.int 20)]] [] strCtor
        = .ok d' ∧
      d'.entries = [(PyVal.int 1, PyVal.int 10),
                    (PyVal.int 2, PyVal.int 20)] ∧
      d'.entries ≠ [(PyVal.int 2, PyVal.int 20)] := by
  refine ⟨{ entries := [(PyVal.int 1, PyVal.int 10)],
            signature := .pynone, variant_level := 0 },
          { entries := [(PyVal.int 1, PyVal.int 10),
                        (PyVal.int 2, PyVal.int 20)],
            signature := .pynone, variant_level := 0 },
          rfl, rfl, rfl, ?_⟩
  simp

/-- C9, amended: re-invoking initialisation on an existing Array replaces
its elements (the new contents come from the new iterable alone), while
on an existing Dict it merges the new mapping into the old entries; in
both cases the signature attribute is replaced by the normalisation of
the new signature argument — although attribute assignment to `signature`
is rejected as read-only — and `variant_level` is unchanged. -/
theorem C9_theorem :
    (∀ (self : ArrayObj) (args : List PyVal)
        (kwargs : List (String × PyVal))
        (ctor : PyVal → Except Unit String) (a : ArrayObj),
        Array_tp_init self args kwargs ctor = .ok a →
        ∃ objOpt sigOpt vlOpt sg,
          parse3 ["iterable", "signature", "variant_level"] args kwargs
            = .ok (objOpt, sigOpt, vlOpt) ∧
          normalize_signature ctor sigOpt = .ok sg ∧
          list_tp_init (objOpt.getD (.tuple [])) = .ok a.elems ∧
          a.signature = sg ∧ a.variant_level = self.variant_level) ∧
    (∀ (self : DictObj) (args : List PyVal)
        (kwargs : List (String × PyVal))
        (ctor : PyVal → Except Unit String) (d : DictObj),
        Dict_tp_init self args kwargs ctor = .ok d →
        ∃ objOpt sigOpt vlOpt sg,
          parse3 ["mapping_or_iterable", "signature", "variant_level"]
              args kwargs = .ok (objOpt, sigOpt, vlOpt) ∧
          normalize_signature ctor sigOpt = .ok sg ∧
          dict_tp_init self.entries (objOpt.getD (.tuple []))
            = .ok d.entries ∧
          d.signature = sg ∧ d.variant_level = self.variant_level) ∧
    member_assign Array_tp_members signature_const = .error () ∧
    member_assign Dict_tp_members signature_const = .error () := by
  refine ⟨?_, ?_, rfl, rfl⟩
  · intro self args kwargs ctor a h
    obtain ⟨o, so, vo, sg, el, hp, hsg, hel, rfl⟩ := Array_tp_init_inv h
    exact ⟨o, so, vo, sg, hp, hsg, hel, rfl, rfl⟩
  · intro self args kwargs ctor d h
    obtain ⟨o, so, vo, sg, es, hp, hsg, hes, rfl⟩ := Dict_tp_init_inv h
    exact ⟨o, so, vo, sg, hp, hsg, hes, rfl, rfl⟩

/-- C9, witness: the amended theorem applied to a concrete re-init of an
array holding `[9]` with new iterable `[1]` and new signature `"s"`. -/
theorem C9_witness :
    Array_tp_init
        { elems := [PyVal.int 9], signature := .sig "q", variant_level := 4 }
        [PyVal.list [PyVal.int 1], PyVal.str "s"] [] strCtor
      = .ok { elems := [PyVal.int 1], signature := .sig "s",
              variant_level := 4 } ∧
    ∃ objOpt sigOpt vlOpt sg,
      parse3 ["iterable", "signature", "variant_level"]
          [PyVal.list [PyVal.int 1], PyVal.str "s"] []
        = .ok (objOpt, sigOpt, vlOpt) ∧
      normalize_signature strCtor sigOpt = .ok sg ∧
      list_tp_init (objOpt.getD (.tuple []))
        = .ok ({ elems := [PyVal.int 1], signature := .sig "s",
                 variant_level := 4 } : ArrayObj).elems ∧
      ({ elems := [PyVal.int 1], signature := .sig "s",
         variant_level := 4 } : ArrayObj).signature = sg ∧
      ({ elems := [PyVal.int 1], signature := .sig "s",
         variant_level := 4 } : ArrayObj).variant_level =
        ({ elems := [PyVal.int 9], signature := .sig "q",
           variant_level := 4 } : ArrayObj).variant_level :=
  ⟨rfl,
   C9_theorem.1
     { elems := [PyVal.int 9], signature := .sig "q", variant_level := 4 }
     [PyVal.list [PyVal.int 1], PyVal.str "s"] [] strCtor _ rfl⟩

/-- C10: when a reply is stolen but `Message_ConsumeDBusMessage` fails,
the handler is never invoked, no warning is produced, and the callback
still runs to the GIL release and returns normally. -/
theorem C10_theorem :
    ∀ (w : DBusMessage) (consume : DBusMessage → Option Message)
      (handler : Message → Option PyVal),
      consume w = none →
      pending_call_notify_function (some w) consume handler =
        [.ensure, .stealReply, .release] := by
  intro w consume handler hc
  simp [pending_call_notify_function, hc]

/-- C10, witness: the decode-failure trace at a concrete reply and an
always-failing decoder. -/
theorem C10_witness :
    ((fun _ : DBusMessage => (none : Option Message)) ⟨3⟩ = none) ∧
    pending_call_notify_function (some ⟨3⟩)
        (fun _ => none) (fun _ => some .pynone) =
      [.ensure, .stealReply, .release] :=
  ⟨rfl, C10_theorem ⟨3⟩ (fun _ => none) (fun _ => some .pynone) rfl⟩

end DBus
